import Mathlib

/-!
Verification development for the file-management and authentication
orchestration logic of a small ERP client.

The embedding below translates the TypeScript source into Lean:

* src/services/fileService.ts : uploadUserFile, deleteUserFile, getUserFiles.
  Every external call (object store write, download-URL retrieval, document
  writes and reads) is an independent fallible step; its outcome is supplied
  by an environment record, and the modelled external state (object store
  contents, document collection) is threaded explicitly.  The try/catch
  wrappers of the source become the error branches of each match: an awaited
  call that rejects jumps to the catch clause, skipping the remainder of the
  try block, and the catch returns a response with success set to false and
  the message of the thrown error.
* the login component (handleFirebaseLogin, handleFirebaseRegister) and the
  documents page (handleFileUpload) from the unnamed source files.

Database-assigned document ids are modelled as naturals issued by a counter
held in the state; the clock readings taken in client code (toISOString and
the Timestamp helper of the database SDK, both of which read the local
clock) are supplied by the environment.
-/

/-- Outcome of one awaited external call: it either resolves with a value or
rejects with an error carrying a message. -/
inductive CallResult (α : Type) where
  | ok (value : α)
  | err (message : String)
deriving DecidableEq

/-- Error thrown by the authentication SDK: carries a code and a message. -/
structure AuthError where
  code : String
  message : String
deriving DecidableEq

/-- Outcome of one awaited authentication call. -/
inductive AuthCallResult (α : Type) where
  | ok (value : α)
  | err (e : AuthError)
deriving DecidableEq

/-- The browser File object handed to the upload functions: original name,
reported byte size, reported MIME type, and content bytes. -/
structure FsFile where
  name : String
  size : Nat
  type : String
  content : List Nat
deriving DecidableEq

/-- The fileData object literal built in uploadUserFile and stored as the
metadata record of one upload. -/
structure FileDoc where
  name : String
  size : Nat
  type : String
  downloadUrl : String
  storagePath : String
  uploadDate : String
  createdAt : Nat
deriving DecidableEq

/-- The record shape pushed by getUserFiles: the stored document minus its
createdAt field, plus the document id. -/
structure UserFile where
  id : Nat
  name : String
  size : Nat
  type : String
  downloadUrl : String
  storagePath : String
  uploadDate : String
deriving DecidableEq

/-- The data value returned by a successful uploadUserFile: the object
literal spreading the whole fileData next to the assigned id. -/
structure UploadRecord where
  id : Nat
  fileData : FileDoc
deriving DecidableEq

/-- The ApiResponse shape of the service layer: a success flag, an optional
data payload and an optional message. -/
structure ApiResponse (α : Type) where
  success : Bool
  data : Option α
  message : Option String
deriving DecidableEq

/-- One document of the per-user files collection: owner id (the collection
path component), document id, and the stored fields. -/
structure StoredDoc where
  uid : String
  id : Nat
  doc : FileDoc
deriving DecidableEq

/-- External state visible to the file service: the object store (path to
bytes), the files collections (flattened, each document tagged with its
owner), and the counter issuing document ids. -/
structure AppState where
  storage : List (String × List Nat)
  db : List StoredDoc
  nextId : Nat
deriving DecidableEq

/-- Look up the object stored at a path. -/
def getObject : List (String × List Nat) → String → Option (List Nat)
  | [], _ => none
  | e :: rest, path => if e.1 == path then some e.2 else getObject rest path

/-- Write bytes at a path, replacing any object already there (the object
store keeps a single object per path). -/
def setObject (storage : List (String × List Nat)) (path : String)
    (bytes : List Nat) : List (String × List Nat) :=
  (path, bytes) :: storage.filter (fun e => !(e.1 == path))

/-- Remove the object stored at a path. -/
def removeObject (storage : List (String × List Nat)) (path : String) :
    List (String × List Nat) :=
  storage.filter (fun e => !(e.1 == path))

/-- Number of objects stored at a path. -/
def countObject (storage : List (String × List Nat)) (path : String) : Nat :=
  (storage.filter (fun e => e.1 == path)).length

/-- Environment of one uploadUserFile call: outcomes of the three external
calls it awaits, the URL the store would hand back, and the two clock
readings taken in the client code (toISOString and the millisecond
timestamp). -/
structure UploadEnv where
  uploadBytesResult : CallResult Unit
  getDownloadURLResult : CallResult String
  addDocResult : CallResult Unit
  nowIso : String
  nowTs : Nat
deriving DecidableEq

/-- Embedding of uploadUserFile: build the storage path, upload the bytes,
request the download URL, then write the metadata record; any rejection
jumps to the catch clause, which returns success false with the error
message.  The success response spreads the whole fileData (createdAt
included) next to the assigned document id. -/
def uploadUserFile (file : FsFile) (uid : String) (env : UploadEnv)
    (st : AppState) : ApiResponse UploadRecord × AppState :=
  let storagePath := "user_uploads/" ++ uid ++ "/" ++ file.name
  match env.uploadBytesResult with
  | .err msg => (⟨false, none, some msg⟩, st)
  | .ok _ =>
    let st1 : AppState :=
      { st with storage := setObject st.storage storagePath file.content }
    match env.getDownloadURLResult with
    | .err msg => (⟨false, none, some msg⟩, st1)
    | .ok downloadUrl =>
      let fileData : FileDoc :=
        { name := file.name, size := file.size, type := file.type,
          downloadUrl := downloadUrl, storagePath := storagePath,
          uploadDate := env.nowIso, createdAt := env.nowTs }
      match env.addDocResult with
      | .err msg => (⟨false, none, some msg⟩, st1)
      | .ok _ =>
        let docId := st1.nextId
        let st2 : AppState :=
          { st1 with db := st1.db ++ [⟨uid, docId, fileData⟩],
                     nextId := docId + 1 }
        (⟨true, some ⟨docId, fileData⟩, none⟩, st2)

/-- Environment of one deleteUserFile call: outcomes of the object deletion
and of the document deletion. -/
structure DeleteEnv where
  deleteObjectResult : CallResult Unit
  deleteDocResult : CallResult Unit
deriving DecidableEq

/-- Embedding of deleteUserFile: delete the object at the storage path, then
delete the metadata document; a rejection of either awaited call jumps to
the catch clause, which returns success false with the error message, so a
failed object deletion skips the document deletion. -/
def deleteUserFile (fileId : Nat) (storagePath : String) (uid : String)
    (env : DeleteEnv) (st : AppState) : ApiResponse Bool × AppState :=
  match env.deleteObjectResult with
  | .err msg => (⟨false, none, some msg⟩, st)
  | .ok _ =>
    let st1 : AppState := { st with storage := removeObject st.storage storagePath }
    match env.deleteDocResult with
    | .err msg => (⟨false, none, some msg⟩, st1)
    | .ok _ =>
      let st2 : AppState :=
        { st1 with db := st1.db.filter (fun r => !(r.uid == uid && r.id == fileId)) }
      (⟨true, none, some "File deleted successfully"⟩, st2)

/-- Comparison used by the descending createdAt query: a document precedes
another when its createdAt is at least as large. -/
def createdAtGE (a b : StoredDoc) : Prop := b.doc.createdAt ≤ a.doc.createdAt

instance : DecidableRel createdAtGE := fun a b =>
  inferInstanceAs (Decidable (b.doc.createdAt ≤ a.doc.createdAt))

instance : IsTotal StoredDoc createdAtGE :=
  ⟨fun a b => Nat.le_total b.doc.createdAt a.doc.createdAt⟩

instance : IsTrans StoredDoc createdAtGE :=
  ⟨fun _ _ _ hab hbc => Nat.le_trans hbc hab⟩

/-- The ordered query of the files collection: all documents sorted by
createdAt, descending (ties are resolved by the database; the model keeps
insertion order on ties). -/
def orderByCreatedAtDesc (docs : List StoredDoc) : List StoredDoc :=
  List.insertionSort createdAtGE docs

/-- The record literal pushed for each queried document: every stored field
except createdAt, plus the document id. -/
def toUserFile (r : StoredDoc) : UserFile :=
  { id := r.id, name := r.doc.name, size := r.doc.size, type := r.doc.type,
    downloadUrl := r.doc.downloadUrl, storagePath := r.doc.storagePath,
    uploadDate := r.doc.uploadDate }

/-- Environment of one getUserFiles call: outcome of the query execution. -/
structure ListEnv where
  getDocsResult : CallResult Unit
deriving DecidableEq

/-- Embedding of getUserFiles: run the descending createdAt query over the
files collection of the user and push one UserFile per document; a rejected
query jumps to the catch clause, which returns success false with the error
message.  The call reads state without changing it. -/
def getUserFiles (uid : String) (env : ListEnv) (st : AppState) :
    ApiResponse (List UserFile) :=
  match env.getDocsResult with
  | .err msg => ⟨false, none, some msg⟩
  | .ok _ =>
    let docs := orderByCreatedAtDesc (st.db.filter (fun r => r.uid == uid))
    ⟨true, some (docs.map toUserFile), none⟩

/-! Authentication component (login screen). -/

/-- Environment of one sign-in attempt: outcome of the provider call, which
on success yields the credential of the signed-in user. -/
structure LoginEnv where
  signInResult : AuthCallResult String
deriving DecidableEq

/-- Observable result of the login handler: either a session for the
signed-in user, or the error message shown to the user. -/
inductive LoginResult where
  | session (uid : String)
  | failed (errorMsg : String)
deriving DecidableEq

/-- True exactly for the three provider codes the login catch clause folds
into the invalid-credentials message. -/
def isInvalidCredentialCode (code : String) : Bool :=
  code == "auth/invalid-credential" || code == "auth/user-not-found" ||
    code == "auth/wrong-password"

/-- Embedding of handleFirebaseLogin: await the provider sign-in; on success
the credential establishes the session; on rejection the catch clause maps
the three invalid-credential codes to a fixed message and passes the
provider message through for anything else. -/
def handleFirebaseLogin (env : LoginEnv) : LoginResult :=
  match env.signInResult with
  | .ok uid => .session uid
  | .err e =>
    if isInvalidCredentialCode e.code then .failed "password or email incorrect"
    else .failed e.message

/-- One identity held by the provider: uid plus the profile fields the
client can set. -/
structure Identity where
  uid : String
  displayName : Option String
  photoURL : Option String
deriving DecidableEq

/-- The per-user profile document written to the users collection. -/
structure ProfileDoc where
  name : String
  email : String
  photoFileName : String
deriving DecidableEq

/-- External state visible to the registration handler: identities held by
the provider and profile documents held by the database. -/
structure AuthState where
  identities : List Identity
  profiles : List (String × ProfileDoc)
deriving DecidableEq

/-- Environment of one registration attempt: outcomes of the three external
calls the handler awaits, in source order. -/
structure RegisterEnv where
  createUserResult : AuthCallResult String
  updateProfileResult : AuthCallResult Unit
  setDocResult : AuthCallResult Unit
deriving DecidableEq

/-- Observable result of the registration handler. -/
inductive RegisterOutcome where
  | registered (uid : String)
  | failed (errorMsg : String)
deriving DecidableEq

/-- Message produced by the registration catch clause: a fixed hint for the
email-already-in-use code, the provider message otherwise. -/
def registerCatchMessage (e : AuthError) : String :=
  if e.code == "auth/email-already-in-use" then "user already exist, sign in?"
  else e.message

/-- Set the displayName and photoURL fields of the identity with the given
uid (the updateProfile call). -/
def updateIdentityProfile (ids : List Identity) (uid dn photoName : String) :
    List Identity :=
  ids.map (fun i => if i.uid == uid then ⟨i.uid, some dn, some photoName⟩ else i)

/-- Write the profile document at the path keyed by uid, replacing any
document already there (the setDoc call). -/
def setProfileDoc (profiles : List (String × ProfileDoc)) (uid : String)
    (p : ProfileDoc) : List (String × ProfileDoc) :=
  (uid, p) :: profiles.filter (fun e => !(e.1 == uid))

/-- Embedding of handleFirebaseRegister.  The password comparison happens
before the try block: on mismatch the handler sets the error message and
returns, issuing none of the three network calls and leaving the external
state untouched.  Otherwise it awaits identity creation, the profile-field
update, and the profile-document write in that order; any rejection jumps
to the catch clause.  The third component of the result is the trace of
provider calls issued, in order. -/
def handleFirebaseRegister (email password repeatPassword displayName : String)
    (photoFile : Option FsFile) (env : RegisterEnv) (st : AuthState) :
    RegisterOutcome × AuthState × List String :=
  if password ≠ repeatPassword then
    (.failed "Passwords do not match", st, [])
  else
    match env.createUserResult with
    | .err e => (.failed (registerCatchMessage e), st, ["createUserWithEmailAndPassword"])
    | .ok uid =>
      let st1 : AuthState := { st with identities := st.identities ++ [⟨uid, none, none⟩] }
      let fileName := match photoFile with
        | some f => f.name
        | none => "default-avatar.png"
      let dn := if displayName == "" then "New User" else displayName
      match env.updateProfileResult with
      | .err e =>
        (.failed (registerCatchMessage e), st1,
          ["createUserWithEmailAndPassword", "updateProfile"])
      | .ok _ =>
        let st2 : AuthState :=
          { st1 with identities := updateIdentityProfile st1.identities uid dn fileName }
        match env.setDocResult with
        | .err e =>
          (.failed (registerCatchMessage e), st2,
            ["createUserWithEmailAndPassword", "updateProfile", "setDoc"])
        | .ok _ =>
          let st3 : AuthState :=
            { st2 with profiles := setProfileDoc st2.profiles uid ⟨dn, email, fileName⟩ }
          (.registered uid, st3,
            ["createUserWithEmailAndPassword", "updateProfile", "setDoc"])

/-! Documents page (file-selection handler). -/

/-- View state of the documents page relevant to the upload handler: the
rendered file list and the error banner. -/
structure ViewState where
  files : List UserFile
  error : Option String
deriving DecidableEq

/-- The JavaScript or-else on an optional message: a missing or empty
message falls back to the default. -/
def jsOr (m : Option String) (d : String) : String :=
  match m with
  | some s => if s == "" then d else s
  | none => d

/-- Embedding of handleFileUpload of the documents page.  The guard returns
at once when the selection is missing or empty or no user is signed in.
Otherwise only the first selected file is passed to uploadUserFile; on a
successful upload the list is re-fetched (a failed fetch sets the error
banner instead), and on a failed upload the error banner is set.  The first
component of the result is the list of arguments passed to uploadUserFile;
purely visual state (spinners, input reset) is not modelled. -/
def handleFileUpload (targetFiles : Option (List FsFile))
    (currentUser : Option String) (uenv : UploadEnv) (lenv : ListEnv)
    (st : AppState) (vs : ViewState) :
    List (FsFile × String) × ViewState × AppState :=
  match targetFiles, currentUser with
  | none, _ => ([], vs, st)
  | some [], _ => ([], vs, st)
  | some (_ :: _), none => ([], vs, st)
  | some (file :: _), some uid =>
    let vs1 : ViewState := { vs with error := none }
    let res := uploadUserFile file uid uenv st
    let vs2 : ViewState :=
      if res.1.success then
        let lresp := getUserFiles uid lenv res.2
        match lresp.success, lresp.data with
        | true, some fs => { vs1 with files := fs }
        | _, _ => { vs1 with error := some (jsOr lresp.message "Failed to load files") }
      else { vs1 with error := some (jsOr res.1.message "Upload failed") }
    ([(file, uid)], vs2, res.2)

/-- Classification of an upload failure by the step that rejects: the
UploadFailed kind when the object write or the URL retrieval fails, the
MetadataWriteFailed kind when both succeed and the metadata write fails. -/
inductive UploadErrorKind where
  | uploadFailed
  | metadataWriteFailed
deriving DecidableEq

/-- The error kind an upload environment produces, if any. -/
def uploadErrorKindOf (env : UploadEnv) : Option UploadErrorKind :=
  match env.uploadBytesResult, env.getDownloadURLResult, env.addDocResult with
  | .err _, _, _ => some .uploadFailed
  | .ok _, .err _, _ => some .uploadFailed
  | .ok _, .ok _, .err _ => some .metadataWriteFailed
  | .ok _, .ok _, .ok _ => none

/-- Record ids are bounded by the id counter: the well-formedness invariant
every reachable state satisfies. -/
def WF (st : AppState) : Prop := ∀ r ∈ st.db, r.id < st.nextId

/-! Helper lemmas about the embedded operations. -/

theorem getObject_setObject (s : List (String × List Nat)) (p : String)
    (b : List Nat) : getObject (setObject s p b) p = some b := by
  simp [getObject, setObject]

theorem countObject_setObject (s : List (String × List Nat)) (p : String)
    (b : List Nat) : countObject (setObject s p b) p = 1 := by
  simp [countObject, setObject, List.filter_filter]

theorem getUserFiles_ok (uid : String) (env : ListEnv) (st : AppState)
    (h : env.getDocsResult = .ok ()) :
    getUserFiles uid env st =
      ⟨true, some ((orderByCreatedAtDesc (st.db.filter (fun r => r.uid == uid))).map
        toUserFile), none⟩ := by
  simp [getUserFiles, h]

theorem uploadUserFile_ok (f : FsFile) (uid url : String) (env : UploadEnv)
    (st : AppState) (h1 : env.uploadBytesResult = .ok ())
    (h2 : env.getDownloadURLResult = .ok url) (h3 : env.addDocResult = .ok ()) :
    uploadUserFile f uid env st =
      (⟨true, some ⟨st.nextId,
          ⟨f.name, f.size, f.type, url, "user_uploads/" ++ uid ++ "/" ++ f.name,
           env.nowIso, env.nowTs⟩⟩, none⟩,
       ⟨setObject st.storage ("user_uploads/" ++ uid ++ "/" ++ f.name) f.content,
        st.db ++ [⟨uid, st.nextId,
          ⟨f.name, f.size, f.type, url, "user_uploads/" ++ uid ++ "/" ++ f.name,
           env.nowIso, env.nowTs⟩⟩],
        st.nextId + 1⟩) := by
  simp [uploadUserFile, h1, h2, h3]

theorem deleteUserFile_ok (fileId : Nat) (storagePath uid : String)
    (env : DeleteEnv) (st : AppState) (h1 : env.deleteObjectResult = .ok ())
    (h2 : env.deleteDocResult = .ok ()) :
    deleteUserFile fileId storagePath uid env st =
      (⟨true, none, some "File deleted successfully"⟩,
       ⟨removeObject st.storage storagePath,
        st.db.filter (fun r => !(r.uid == uid && r.id == fileId)),
        st.nextId⟩) := by
  simp [deleteUserFile, h1, h2]

theorem orderByCreatedAtDesc_perm (l : List StoredDoc) :
    (orderByCreatedAtDesc l).Perm l :=
  List.perm_insertionSort createdAtGE l

theorem orderByCreatedAtDesc_sorted (l : List StoredDoc) :
    List.Pairwise createdAtGE (orderByCreatedAtDesc l) :=
  List.sorted_insertionSort createdAtGE l

/-! Claim theorems. -/

/-- C1, counterexample.  The claim says that on delete both steps are
attempted unconditionally, so that a failed object deletion is still
followed by the metadata deletion.  At this concrete input the object
deletion fails while the document deletion would succeed, yet the call
returns the failure at once and the metadata record is still in the
collection: the second step was never attempted, refuting the claim. -/
theorem deleteUserFile_object_failure_skips_metadata_delete :
    deleteUserFile 0 "user_uploads/u/a.txt" "u"
        ⟨.err "object deletion failed", .ok ()⟩
        ⟨[("user_uploads/u/a.txt", [1])],
         [⟨"u", 0, ⟨"a.txt", 1, "text/plain", "http://u",
            "user_uploads/u/a.txt", "2024-01-01T00:00:00.000Z", 5⟩⟩], 1⟩ =
      (⟨false, none, some "object deletion failed"⟩,
       ⟨[("user_uploads/u/a.txt", [1])],
        [⟨"u", 0, ⟨"a.txt", 1, "text/plain", "http://u",
           "user_uploads/u/a.txt", "2024-01-01T00:00:00.000Z", 5⟩⟩], 1⟩) := rfl

/-- C1, amended.  The two deletion steps run in sequence, object deletion
first: when the object deletion fails the call returns that failure and the
metadata deletion is not attempted (the state is untouched); when the
object deletion succeeds and the metadata deletion fails, the object stays
deleted and the record stays present, with no rollback; when both succeed
the object and the record are both removed. -/
theorem deleteUserFile_sequential_no_rollback :
    ∀ (fileId : Nat) (storagePath uid : String) (env : DeleteEnv) (st : AppState),
      (∀ msg, env.deleteObjectResult = .err msg →
        deleteUserFile fileId storagePath uid env st = (⟨false, none, some msg⟩, st)) ∧
      (∀ msg, env.deleteObjectResult = .ok () → env.deleteDocResult = .err msg →
        deleteUserFile fileId storagePath uid env st =
          (⟨false, none, some msg⟩,
           ⟨removeObject st.storage storagePath, st.db, st.nextId⟩)) ∧
      (env.deleteObjectResult = .ok () → env.deleteDocResult = .ok () →
        deleteUserFile fileId storagePath uid env st =
          (⟨true, none, some "File deleted successfully"⟩,
           ⟨removeObject st.storage storagePath,
            st.db.filter (fun r => !(r.uid == uid && r.id == fileId)),
            st.nextId⟩)) := by
  intro fileId storagePath uid env st
  refine ⟨?_, ?_, ?_⟩
  · intro msg h
    simp [deleteUserFile, h]
  · intro msg h1 h2
    simp [deleteUserFile, h1, h2]
  · intro h1 h2
    simp [deleteUserFile, h1, h2]

/-- C1 witness: the no-rollback branch at a concrete input where the object
deletion succeeds and the document deletion fails. -/
theorem deleteUserFile_sequential_no_rollback_witness :
    deleteUserFile 0 "p" "u" ⟨.ok (), .err "doc delete failed"⟩
        ⟨[("p", [7])], [⟨"u", 0, ⟨"a.txt", 1, "text/plain", "http://u", "p",
          "2024-01-01T00:00:00.000Z", 5⟩⟩], 1⟩ =
      (⟨false, none, some "doc delete failed"⟩,
       ⟨[], [⟨"u", 0, ⟨"a.txt", 1, "text/plain", "http://u", "p",
         "2024-01-01T00:00:00.000Z", 5⟩⟩], 1⟩) :=
  (deleteUserFile_sequential_no_rollback 0 "p" "u" _ _).2.1 "doc delete failed" rfl rfl

/-- C6: when the two password fields differ, registration fails with the
password-mismatch message, issues no provider call (empty call trace), and
creates no identity and no profile document (the external state is returned
unchanged). -/
theorem handleFirebaseRegister_password_mismatch :
    ∀ (email password repeatPassword displayName : String)
      (photoFile : Option FsFile) (env : RegisterEnv) (st : AuthState),
      password ≠ repeatPassword →
      handleFirebaseRegister email password repeatPassword displayName photoFile env st =
        (.failed "Passwords do not match", st, []) := by
  intro email pw rpw dn ph env st h
  simp [handleFirebaseRegister, h]

/-- C6 witness at a concrete mismatching pair. -/
theorem handleFirebaseRegister_password_mismatch_witness :
    handleFirebaseRegister "a@b.c" "pw1" "pw2" "Nia" none
        ⟨.ok "u1", .ok (), .ok ()⟩ ⟨[], []⟩ =
      (.failed "Passwords do not match", ⟨[], []⟩, []) :=
  handleFirebaseRegister_password_mismatch "a@b.c" "pw1" "pw2" "Nia" none
    ⟨.ok "u1", .ok (), .ok ()⟩ ⟨[], []⟩ (by decide)

/-- C8: a sign-in attempt either yields a session (when the provider call
succeeds), or fails with the invalid-credentials message exactly when the
provider reports one of the not-found, wrong-password or invalid-credential
codes, or fails with the provider message passed through for any other
provider error. -/
theorem handleFirebaseLogin_error_mapping :
    ∀ env : LoginEnv,
      (∀ uid, env.signInResult = .ok uid → handleFirebaseLogin env = .session uid) ∧
      (∀ e, env.signInResult = .err e → isInvalidCredentialCode e.code = true →
        handleFirebaseLogin env = .failed "password or email incorrect") ∧
      (∀ e, env.signInResult = .err e → isInvalidCredentialCode e.code = false →
        handleFirebaseLogin env = .failed e.message) := by
  intro env
  refine ⟨?_, ?_, ?_⟩
  · intro uid h
    simp [handleFirebaseLogin, h]
  · intro e h hc
    simp [handleFirebaseLogin, h, hc]
  · intro e h hc
    simp [handleFirebaseLogin, h, hc]

/-- C8 witness: a wrong-password provider error maps to the
invalid-credentials message. -/
theorem handleFirebaseLogin_error_mapping_witness :
    handleFirebaseLogin ⟨.err ⟨"auth/wrong-password", "backend text"⟩⟩ =
      .failed "password or email incorrect" :=
  (handleFirebaseLogin_error_mapping ⟨.err ⟨"auth/wrong-password", "backend text"⟩⟩).2.1
    ⟨"auth/wrong-password", "backend text"⟩ rfl rfl

/-- C9, counterexample.  The claim says every operation returns the
operation data on success, but a successful delete returns success true
with a confirmation message and no data payload. -/
theorem deleteUserFile_success_has_no_data :
    (deleteUserFile 0 "user_uploads/u/a.txt" "u" ⟨.ok (), .ok ()⟩
        ⟨[("user_uploads/u/a.txt", [1])], [], 1⟩).1 =
      ⟨true, none, some "File deleted successfully"⟩ := rfl

/-- C9, amended.  Every file-service operation is total over its error
channel: it always returns a response value (the embedding is a total
function, matching the try/catch that never lets an exception escape); on
any underlying failure the response has success false and a message; on
success, upload and list carry the operation data, while delete carries a
confirmation message and no data payload. -/
theorem fileService_total_response_shape :
    ∀ (f : FsFile) (uploadUid : String) (uenv : UploadEnv) (fileId : Nat)
      (path deleteUid listUid : String) (denv : DeleteEnv) (lenv : ListEnv)
      (st : AppState),
      ((uploadUserFile f uploadUid uenv st).1.success = true ∧
        ((uploadUserFile f uploadUid uenv st).1.data).isSome = true ∨
       (uploadUserFile f uploadUid uenv st).1.success = false ∧
        ((uploadUserFile f uploadUid uenv st).1.message).isSome = true) ∧
      ((getUserFiles listUid lenv st).success = true ∧
        ((getUserFiles listUid lenv st).data).isSome = true ∨
       (getUserFiles listUid lenv st).success = false ∧
        ((getUserFiles listUid lenv st).message).isSome = true) ∧
      ((deleteUserFile fileId path deleteUid denv st).1.success = true ∧
        (deleteUserFile fileId path deleteUid denv st).1.data = none ∧
        ((deleteUserFile fileId path deleteUid denv st).1.message).isSome = true ∨
       (deleteUserFile fileId path deleteUid denv st).1.success = false ∧
        ((deleteUserFile fileId path deleteUid denv st).1.message).isSome = true) := by
  intro f uploadUid uenv fileId path deleteUid listUid denv lenv st
  refine ⟨?_, ?_, ?_⟩
  · obtain ⟨ub, gd, ad, iso, ts⟩ := uenv
    cases ub <;> cases gd <;> cases ad <;> simp [uploadUserFile]
  · obtain ⟨gr⟩ := lenv
    cases gr <;> simp [getUserFiles]
  · obtain ⟨dor, ddr⟩ := denv
    cases dor <;> cases ddr <;> simp [deleteUserFile]

/-- C10: the file-selection handler uploads at most one file; with a
non-empty selection and a signed-in user exactly the first selected file is
passed to upload; with a missing or empty selection or no user the handler
returns at once, uploading nothing and leaving the view state and the
external state unchanged. -/
theorem handleFileUpload_at_most_one_file :
    ∀ (targetFiles : Option (List FsFile)) (currentUser : Option String)
      (uenv : UploadEnv) (lenv : ListEnv) (st : AppState) (vs : ViewState),
      (handleFileUpload targetFiles currentUser uenv lenv st vs).1.length ≤ 1 ∧
      (∀ f rest uid, targetFiles = some (f :: rest) → currentUser = some uid →
        (handleFileUpload targetFiles currentUser uenv lenv st vs).1 = [(f, uid)]) ∧
      (targetFiles = none ∨ targetFiles = some [] ∨ currentUser = none →
        handleFileUpload targetFiles currentUser uenv lenv st vs = ([], vs, st)) := by
  intro tf cu uenv lenv st vs
  refine ⟨?_, ?_, ?_⟩
  · match tf, cu with
    | none, _ => simp [handleFileUpload]
    | some [], _ => simp [handleFileUpload]
    | some (f :: r), none => simp [handleFileUpload]
    | some (f :: r), some uid => simp [handleFileUpload]
  · intro f rest uid h1 h2
    subst h1; subst h2
    simp [handleFileUpload]
  · intro h
    rcases h with h | h | h
    · subst h; simp [handleFileUpload]
    · subst h; simp [handleFileUpload]
    · subst h
      match tf with
      | none => simp [handleFileUpload]
      | some [] => simp [handleFileUpload]
      | some (f :: r) => simp [handleFileUpload]

/-- C2: when the object write fails the call returns that failure at once
and nothing changes; when the object write succeeds and the URL retrieval
fails the call returns that failure with the metadata write skipped (the
collection is unchanged); both situations are the UploadFailed kind.  When
bytes were stored and the metadata write fails — the distinct
MetadataWriteFailed kind, a disjoint condition by construction of the
classifier — the call returns the metadata-write failure, the collection is
unchanged, and the stored object is still at its path, not cleaned up. -/
theorem uploadUserFile_error_kinds :
    ∀ (f : FsFile) (uid : String) (env : UploadEnv) (st : AppState),
      (∀ msg, env.uploadBytesResult = .err msg →
        uploadUserFile f uid env st = (⟨false, none, some msg⟩, st)) ∧
      (∀ msg, env.uploadBytesResult = .ok () → env.getDownloadURLResult = .err msg →
        (uploadUserFile f uid env st).1 = ⟨false, none, some msg⟩ ∧
        (uploadUserFile f uid env st).2.db = st.db) ∧
      (∀ url msg, env.uploadBytesResult = .ok () → env.getDownloadURLResult = .ok url →
        env.addDocResult = .err msg →
        (uploadUserFile f uid env st).1 = ⟨false, none, some msg⟩ ∧
        (uploadUserFile f uid env st).2.db = st.db ∧
        getObject (uploadUserFile f uid env st).2.storage
          ("user_uploads/" ++ uid ++ "/" ++ f.name) = some f.content) ∧
      (uploadErrorKindOf env = some .uploadFailed →
        (uploadUserFile f uid env st).1.success = false ∧
        (uploadUserFile f uid env st).1.data = none ∧
        (uploadUserFile f uid env st).2.db = st.db) ∧
      (uploadErrorKindOf env = some .metadataWriteFailed →
        (uploadUserFile f uid env st).1.success = false ∧
        (uploadUserFile f uid env st).2.db = st.db ∧
        getObject (uploadUserFile f uid env st).2.storage
          ("user_uploads/" ++ uid ++ "/" ++ f.name) = some f.content) := by
  intro f uid env st
  obtain ⟨ub, gd, ad, iso, ts⟩ := env
  refine ⟨?_, ?_, ?_, ?_, ?_⟩
  · intro msg h
    subst h
    simp [uploadUserFile]
  · intro msg h1 h2
    subst h1; subst h2
    simp [uploadUserFile]
  · intro url msg h1 h2 h3
    subst h1; subst h2; subst h3
    simp [uploadUserFile, getObject_setObject]
  · intro hk
    cases ub with
    | err m => simp [uploadUserFile]
    | ok v =>
      cases gd with
      | err m => simp [uploadUserFile]
      | ok url =>
        cases ad with
        | err m => simp [uploadErrorKindOf] at hk
        | ok w => simp [uploadErrorKindOf] at hk
  · intro hk
    cases ub with
    | err m => simp [uploadErrorKindOf] at hk
    | ok v =>
      cases gd with
      | err m => simp [uploadErrorKindOf] at hk
      | ok url =>
        cases ad with
        | err m => simp [uploadUserFile, getObject_setObject]
        | ok w => simp [uploadErrorKindOf] at hk

/-- C2 witness: the metadata-write-failure branch at a concrete input. -/
theorem uploadUserFile_error_kinds_witness :
    (uploadUserFile ⟨"a.txt", 3, "text/plain", [1, 2]⟩ "u"
        ⟨.ok (), .ok "http://u", .err "metadata write failed",
         "2024-01-01T00:00:00.000Z", 7⟩ ⟨[], [], 0⟩).1 =
      ⟨false, none, some "metadata write failed"⟩ ∧
    (uploadUserFile ⟨"a.txt", 3, "text/plain", [1, 2]⟩ "u"
        ⟨.ok (), .ok "http://u", .err "metadata write failed",
         "2024-01-01T00:00:00.000Z", 7⟩ ⟨[], [], 0⟩).2.db = [] ∧
    getObject (uploadUserFile ⟨"a.txt", 3, "text/plain", [1, 2]⟩ "u"
        ⟨.ok (), .ok "http://u", .err "metadata write failed",
         "2024-01-01T00:00:00.000Z", 7⟩ ⟨[], [], 0⟩).2.storage
      ("user_uploads/" ++ "u" ++ "/" ++ "a.txt") = some [1, 2] :=
  (uploadUserFile_error_kinds ⟨"a.txt", 3, "text/plain", [1, 2]⟩ "u"
      ⟨.ok (), .ok "http://u", .err "metadata write failed",
       "2024-01-01T00:00:00.000Z", 7⟩ ⟨[], [], 0⟩).2.2.1
    "http://u" "metadata write failed" rfl rfl rfl

/-- C3, counterexample.  The claim says the ordering timestamp is never
exposed to callers, but the success response of upload spreads the whole
stored fileData, createdAt included, into its data payload: at two inputs
differing only in the ordering-timestamp reading the caller-visible
responses differ, and each response carries the reading in its createdAt
field. -/
theorem uploadUserFile_response_exposes_createdAt :
    ((uploadUserFile ⟨"a.txt", 3, "text/plain", [1, 2, 3]⟩ "u"
        ⟨.ok (), .ok "http://u", .ok (), "2024-01-01T00:00:00.000Z", 0⟩
        ⟨[], [], 0⟩).1.data.map (fun r => r.fileData.createdAt)) = some 0 ∧
    ((uploadUserFile ⟨"a.txt", 3, "text/plain", [1, 2, 3]⟩ "u"
        ⟨.ok (), .ok "http://u", .ok (), "2024-01-01T00:00:00.000Z", 1⟩
        ⟨[], [], 0⟩).1.data.map (fun r => r.fileData.createdAt)) = some 1 ∧
    (uploadUserFile ⟨"a.txt", 3, "text/plain", [1, 2, 3]⟩ "u"
        ⟨.ok (), .ok "http://u", .ok (), "2024-01-01T00:00:00.000Z", 0⟩
        ⟨[], [], 0⟩).1 ≠
      (uploadUserFile ⟨"a.txt", 3, "text/plain", [1, 2, 3]⟩ "u"
        ⟨.ok (), .ok "http://u", .ok (), "2024-01-01T00:00:00.000Z", 1⟩
        ⟨[], [], 0⟩).1 := by
  refine ⟨rfl, rfl, ?_⟩
  decide

/-- C3, amended.  A successful upload stores two separate timestamps in the
metadata record: the ISO upload timestamp and the ordering timestamp, both
taken from clock readings in client code.  The ordering timestamp drives
the descending sort of List, and the records List returns are built by a
projection that keeps the upload timestamp and drops createdAt — but the
data returned by the upload call itself does include createdAt. -/
theorem upload_timestamps_and_list_projection :
    ∀ (f : FsFile) (uid url : String) (env : UploadEnv) (st : AppState),
      env.uploadBytesResult = .ok () → env.getDownloadURLResult = .ok url →
      env.addDocResult = .ok () →
      ∃ rec : UploadRecord,
        (uploadUserFile f uid env st).1.data = some rec ∧
        rec.fileData.uploadDate = env.nowIso ∧
        rec.fileData.createdAt = env.nowTs ∧
        (uploadUserFile f uid env st).2.db = st.db ++ [⟨uid, rec.id, rec.fileData⟩] ∧
        (∀ r : StoredDoc, (toUserFile r).uploadDate = r.doc.uploadDate) ∧
        (∀ (r : StoredDoc) (t : Nat),
          toUserFile ⟨r.uid, r.id, ⟨r.doc.name, r.doc.size, r.doc.type,
            r.doc.downloadUrl, r.doc.storagePath, r.doc.uploadDate, t⟩⟩ =
            toUserFile r) ∧
        (∀ (lenv : ListEnv) (st2 : AppState), lenv.getDocsResult = .ok () →
          getUserFiles uid lenv st2 =
            ⟨true, some ((orderByCreatedAtDesc
              (st2.db.filter (fun r => r.uid == uid))).map toUserFile), none⟩) := by
  intro f uid url env st h1 h2 h3
  rw [uploadUserFile_ok f uid url env st h1 h2 h3]
  exact ⟨⟨st.nextId, ⟨f.name, f.size, f.type, url,
      "user_uploads/" ++ uid ++ "/" ++ f.name, env.nowIso, env.nowTs⟩⟩,
    rfl, rfl, rfl, rfl, fun r => rfl, fun r t => rfl,
    fun lenv st2 h => getUserFiles_ok uid lenv st2 h⟩

/-- C3 witness at a concrete successful upload. -/
theorem upload_timestamps_and_list_projection_witness :
    ∃ rec : UploadRecord,
      (uploadUserFile ⟨"a.txt", 3, "text/plain", [1]⟩ "u"
          ⟨.ok (), .ok "http://u", .ok (), "2024-01-01T00:00:00.000Z", 7⟩
          ⟨[], [], 0⟩).1.data = some rec ∧
      rec.fileData.uploadDate = "2024-01-01T00:00:00.000Z" ∧
      rec.fileData.createdAt = 7 ∧
      (uploadUserFile ⟨"a.txt", 3, "text/plain", [1]⟩ "u"
          ⟨.ok (), .ok "http://u", .ok (), "2024-01-01T00:00:00.000Z", 7⟩
          ⟨[], [], 0⟩).2.db = [] ++ [⟨"u", rec.id, rec.fileData⟩] ∧
      (∀ r : StoredDoc, (toUserFile r).uploadDate = r.doc.uploadDate) ∧
      (∀ (r : StoredDoc) (t : Nat),
        toUserFile ⟨r.uid, r.id, ⟨r.doc.name, r.doc.size, r.doc.type,
          r.doc.downloadUrl, r.doc.storagePath, r.doc.uploadDate, t⟩⟩ =
          toUserFile r) ∧
      (∀ (lenv : ListEnv) (st2 : AppState), lenv.getDocsResult = .ok () →
        getUserFiles "u" lenv st2 =
          ⟨true, some ((orderByCreatedAtDesc
            (st2.db.filter (fun r => r.uid == "u"))).map toUserFile), none⟩) :=
  upload_timestamps_and_list_projection ⟨"a.txt", 3, "text/plain", [1]⟩ "u"
    "http://u" ⟨.ok (), .ok "http://u", .ok (), "2024-01-01T00:00:00.000Z", 7⟩
    ⟨[], [], 0⟩ rfl rfl rfl

/-- C4: the storage path is the deterministic concatenation of the fixed
prefix, the user id and the original file name; two successful uploads of
same-named files by the same user return records with identical storage
paths but distinct ids, append two metadata records to the collection, and
leave a single stored object at the shared path holding the bytes of the
second upload. -/
theorem uploadUserFile_storage_path_collision :
    ∀ (f1 f2 : FsFile) (uid url1 url2 : String) (e1 e2 : UploadEnv) (st : AppState),
      f1.name = f2.name →
      e1.uploadBytesResult = .ok () → e1.getDownloadURLResult = .ok url1 →
      e1.addDocResult = .ok () →
      e2.uploadBytesResult = .ok () → e2.getDownloadURLResult = .ok url2 →
      e2.addDocResult = .ok () →
      ∃ r1 r2 : UploadRecord,
        (uploadUserFile f1 uid e1 st).1.data = some r1 ∧
        (uploadUserFile f2 uid e2 (uploadUserFile f1 uid e1 st).2).1.data = some r2 ∧
        r1.fileData.storagePath = "user_uploads/" ++ uid ++ "/" ++ f1.name ∧
        r2.fileData.storagePath = r1.fileData.storagePath ∧
        r1.id ≠ r2.id ∧
        getObject (uploadUserFile f2 uid e2 (uploadUserFile f1 uid e1 st).2).2.storage
          ("user_uploads/" ++ uid ++ "/" ++ f1.name) = some f2.content ∧
        countObject (uploadUserFile f2 uid e2 (uploadUserFile f1 uid e1 st).2).2.storage
          ("user_uploads/" ++ uid ++ "/" ++ f1.name) = 1 ∧
        (uploadUserFile f2 uid e2 (uploadUserFile f1 uid e1 st).2).2.db =
          st.db ++ [⟨uid, r1.id, r1.fileData⟩, ⟨uid, r2.id, r2.fileData⟩] := by
  intro f1 f2 uid url1 url2 e1 e2 st hname h1 h2 h3 h4 h5 h6
  rw [uploadUserFile_ok f1 uid url1 e1 st h1 h2 h3]
  rw [uploadUserFile_ok f2 uid url2 e2 _ h4 h5 h6]
  refine ⟨⟨st.nextId, ⟨f1.name, f1.size, f1.type, url1,
      "user_uploads/" ++ uid ++ "/" ++ f1.name, e1.nowIso, e1.nowTs⟩⟩,
    ⟨st.nextId + 1, ⟨f2.name, f2.size, f2.type, url2,
      "user_uploads/" ++ uid ++ "/" ++ f2.name, e2.nowIso, e2.nowTs⟩⟩,
    rfl, rfl, rfl, ?_, ?_, ?_, ?_, ?_⟩
  · rw [hname]
  · show st.nextId ≠ st.nextId + 1
    omega
  · rw [hname]
    exact getObject_setObject _ _ _
  · rw [hname]
    exact countObject_setObject _ _ _
  · simp

/-- C4 witness: two concrete same-named uploads by one user. -/
theorem uploadUserFile_storage_path_collision_witness :
    ∃ r1 r2 : UploadRecord,
      (uploadUserFile ⟨"a.txt", 3, "text/plain", [1]⟩ "u"
          ⟨.ok (), .ok "http://u1", .ok (), "2024-01-01T00:00:00.000Z", 1⟩
          ⟨[], [], 0⟩).1.data = some r1 ∧
      (uploadUserFile ⟨"a.txt", 4, "text/plain", [9]⟩ "u"
          ⟨.ok (), .ok "http://u2", .ok (), "2024-01-02T00:00:00.000Z", 2⟩
          (uploadUserFile ⟨"a.txt", 3, "text/plain", [1]⟩ "u"
            ⟨.ok (), .ok "http://u1", .ok (), "2024-01-01T00:00:00.000Z", 1⟩
            ⟨[], [], 0⟩).2).1.data = some r2 ∧
      r1.fileData.storagePath = "user_uploads/" ++ "u" ++ "/" ++ "a.txt" ∧
      r2.fileData.storagePath = r1.fileData.storagePath ∧
      r1.id ≠ r2.id ∧
      getObject (uploadUserFile ⟨"a.txt", 4, "text/plain", [9]⟩ "u"
          ⟨.ok (), .ok "http://u2", .ok (), "2024-01-02T00:00:00.000Z", 2⟩
          (uploadUserFile ⟨"a.txt", 3, "text/plain", [1]⟩ "u"
            ⟨.ok (), .ok "http://u1", .ok (), "2024-01-01T00:00:00.000Z", 1⟩
            ⟨[], [], 0⟩).2).2.storage
        ("user_uploads/" ++ "u" ++ "/" ++ "a.txt") = some [9] ∧
      countObject (uploadUserFile ⟨"a.txt", 4, "text/plain", [9]⟩ "u"
          ⟨.ok (), .ok "http://u2", .ok (), "2024-01-02T00:00:00.000Z", 2⟩
          (uploadUserFile ⟨"a.txt", 3, "text/plain", [1]⟩ "u"
            ⟨.ok (), .ok "http://u1", .ok (), "2024-01-01T00:00:00.000Z", 1⟩
            ⟨[], [], 0⟩).2).2.storage
        ("user_uploads/" ++ "u" ++ "/" ++ "a.txt") = 1 ∧
      (uploadUserFile ⟨"a.txt", 4, "text/plain", [9]⟩ "u"
          ⟨.ok (), .ok "http://u2", .ok (), "2024-01-02T00:00:00.000Z", 2⟩
          (uploadUserFile ⟨"a.txt", 3, "text/plain", [1]⟩ "u"
            ⟨.ok (), .ok "http://u1", .ok (), "2024-01-01T00:00:00.000Z", 1⟩
            ⟨[], [], 0⟩).2).2.db =
        [] ++ [⟨"u", r1.id, r1.fileData⟩, ⟨"u", r2.id, r2.fileData⟩] :=
  uploadUserFile_storage_path_collision ⟨"a.txt", 3, "text/plain", [1]⟩
    ⟨"a.txt", 4, "text/plain", [9]⟩ "u" "http://u1" "http://u2"
    ⟨.ok (), .ok "http://u1", .ok (), "2024-01-01T00:00:00.000Z", 1⟩
    ⟨.ok (), .ok "http://u2", .ok (), "2024-01-02T00:00:00.000Z", 2⟩
    ⟨[], [], 0⟩ rfl rfl rfl rfl rfl rfl rfl

/-- C7: a successful List returns exactly the metadata records of the user
(a permutation of the filtered collection), sorted by the ordering
timestamp in descending order; when the ordering timestamps are pairwise
distinct the order is strictly descending. -/
theorem getUserFiles_ordering :
    ∀ (uid : String) (lenv : ListEnv) (st : AppState),
      lenv.getDocsResult = .ok () →
      ∃ docs : List StoredDoc,
        getUserFiles uid lenv st = ⟨true, some (docs.map toUserFile), none⟩ ∧
        docs.Perm (st.db.filter (fun r => r.uid == uid)) ∧
        List.Pairwise createdAtGE docs ∧
        (List.Pairwise (fun a b => a.doc.createdAt ≠ b.doc.createdAt)
            (st.db.filter (fun r => r.uid == uid)) →
          List.Pairwise (fun a b => b.doc.createdAt < a.doc.createdAt) docs) := by
  intro uid lenv st h
  refine ⟨orderByCreatedAtDesc (st.db.filter (fun r => r.uid == uid)),
    getUserFiles_ok uid lenv st h, orderByCreatedAtDesc_perm _,
    orderByCreatedAtDesc_sorted _, ?_⟩
  intro hne
  have hne2 : List.Pairwise (fun a b => a.doc.createdAt ≠ b.doc.createdAt)
      (orderByCreatedAtDesc (st.db.filter (fun r => r.uid == uid))) :=
    (List.Perm.pairwise_iff (fun hxy => hxy.symm) (orderByCreatedAtDesc_perm _)).mpr hne
  exact ((orderByCreatedAtDesc_sorted _).and hne2).imp
    (fun h2 => lt_of_le_of_ne h2.1 h2.2.symm)

/-- C7 witness: a concrete collection with three records of one user at
distinct times, plus a record of another user. -/
theorem getUserFiles_ordering_witness :
    ∃ docs : List StoredDoc,
      getUserFiles "u" ⟨.ok ()⟩
          ⟨[], [⟨"u", 0, ⟨"a.txt", 1, "text/plain", "http://1", "pa", "i1", 3⟩⟩,
               ⟨"v", 1, ⟨"b.txt", 1, "text/plain", "http://2", "pb", "i2", 100⟩⟩,
               ⟨"u", 2, ⟨"c.txt", 1, "text/plain", "http://3", "pc", "i3", 9⟩⟩,
               ⟨"u", 3, ⟨"d.txt", 1, "text/plain", "http://4", "pd", "i4", 5⟩⟩], 4⟩ =
        ⟨true, some (docs.map toUserFile), none⟩ ∧
      docs.Perm (([⟨"u", 0, ⟨"a.txt", 1, "text/plain", "http://1", "pa", "i1", 3⟩⟩,
               ⟨"v", 1, ⟨"b.txt", 1, "text/plain", "http://2", "pb", "i2", 100⟩⟩,
               ⟨"u", 2, ⟨"c.txt", 1, "text/plain", "http://3", "pc", "i3", 9⟩⟩,
               ⟨"u", 3, ⟨"d.txt", 1, "text/plain", "http://4", "pd", "i4", 5⟩⟩] :
            List StoredDoc).filter (fun r => r.uid == "u")) ∧
      List.Pairwise createdAtGE docs ∧
      (List.Pairwise (fun a b => a.doc.createdAt ≠ b.doc.createdAt)
          (([⟨"u", 0, ⟨"a.txt", 1, "text/plain", "http://1", "pa", "i1", 3⟩⟩,
               ⟨"v", 1, ⟨"b.txt", 1, "text/plain", "http://2", "pb", "i2", 100⟩⟩,
               ⟨"u", 2, ⟨"c.txt", 1, "text/plain", "http://3", "pc", "i3", 9⟩⟩,
               ⟨"u", 3, ⟨"d.txt", 1, "text/plain", "http://4", "pd", "i4", 5⟩⟩] :
            List StoredDoc).filter (fun r => r.uid == "u")) →
        List.Pairwise (fun a b => b.doc.createdAt < a.doc.createdAt) docs) :=
  getUserFiles_ordering "u" ⟨.ok ()⟩
    ⟨[], [⟨"u", 0, ⟨"a.txt", 1, "text/plain", "http://1", "pa", "i1", 3⟩⟩,
         ⟨"v", 1, ⟨"b.txt", 1, "text/plain", "http://2", "pb", "i2", 100⟩⟩,
         ⟨"u", 2, ⟨"c.txt", 1, "text/plain", "http://3", "pc", "i3", 9⟩⟩,
         ⟨"u", 3, ⟨"d.txt", 1, "text/plain", "http://4", "pd", "i4", 5⟩⟩], 4⟩ rfl

/-- C5: round-trip.  Successfully uploading a file and then listing yields
exactly one new record (the listed records are a permutation of the new
record together with the previous listing, and the new record id is fresh);
the uploaded record carries the name, size and MIME type of the input.
Deleting that record and listing again yields exactly the previous listing:
the record is gone and all other records are unchanged. -/
theorem upload_list_delete_round_trip :
    ∀ (f : FsFile) (uid url : String) (uenv : UploadEnv) (lenv : ListEnv)
      (denv : DeleteEnv) (st : AppState),
      WF st →
      uenv.uploadBytesResult = .ok () →
      uenv.getDownloadURLResult = .ok url →
      uenv.addDocResult = .ok () →
      lenv.getDocsResult = .ok () →
      denv.deleteObjectResult = .ok () →
      denv.deleteDocResult = .ok () →
      ∃ (rec : UploadRecord) (before after : List UserFile),
        (getUserFiles uid lenv st).data = some before ∧
        (uploadUserFile f uid uenv st).1.success = true ∧
        (uploadUserFile f uid uenv st).1.data = some rec ∧
        rec.fileData.name = f.name ∧
        rec.fileData.size = f.size ∧
        rec.fileData.type = f.type ∧
        (getUserFiles uid lenv (uploadUserFile f uid uenv st).2).data = some after ∧
        after.Perm (toUserFile ⟨uid, rec.id, rec.fileData⟩ :: before) ∧
        (∀ x ∈ before, x.id ≠ rec.id) ∧
        (deleteUserFile rec.id rec.fileData.storagePath uid denv
            (uploadUserFile f uid uenv st).2).1.success = true ∧
        (getUserFiles uid lenv (deleteUserFile rec.id rec.fileData.storagePath uid denv
            (uploadUserFile f uid uenv st).2).2).data = some before := by
  intro f uid url uenv lenv denv st hwf h1 h2 h3 h4 h5 h6
  have gok : ∀ s : AppState, getUserFiles uid lenv s =
      ⟨true, some ((orderByCreatedAtDesc (s.db.filter (fun r => r.uid == uid))).map
        toUserFile), none⟩ :=
    fun s => getUserFiles_ok uid lenv s h4
  have dok : ∀ (fid : Nat) (p : String) (s : AppState),
      deleteUserFile fid p uid denv s =
        (⟨true, none, some "File deleted successfully"⟩,
         ⟨removeObject s.storage p,
          s.db.filter (fun r => !(r.uid == uid && r.id == fid)), s.nextId⟩) :=
    fun fid p s => deleteUserFile_ok fid p uid denv s h5 h6
  rw [uploadUserFile_ok f uid url uenv st h1 h2 h3]
  simp only [gok, dok]
  refine ⟨⟨st.nextId, ⟨f.name, f.size, f.type, url,
      "user_uploads/" ++ uid ++ "/" ++ f.name, uenv.nowIso, uenv.nowTs⟩⟩,
    _, _, rfl, trivial, rfl, rfl, rfl, rfl, rfl, ?_, ?_, trivial, ?_⟩
  · -- one new record: the fresh listing is a permutation of the new record
    -- together with the previous listing
    have hfa : (st.db ++ [(⟨uid, st.nextId, ⟨f.name, f.size, f.type, url,
        "user_uploads/" ++ uid ++ "/" ++ f.name, uenv.nowIso, uenv.nowTs⟩⟩ :
          StoredDoc)]).filter (fun r => r.uid == uid) =
        st.db.filter (fun r => r.uid == uid) ++
          [⟨uid, st.nextId, ⟨f.name, f.size, f.type, url,
            "user_uploads/" ++ uid ++ "/" ++ f.name, uenv.nowIso, uenv.nowTs⟩⟩] := by
      simp [List.filter_append]
    rw [hfa]
    refine ((orderByCreatedAtDesc_perm _).map toUserFile).trans ?_
    rw [List.map_append]
    refine (List.perm_append_singleton _ _).trans ?_
    exact (((orderByCreatedAtDesc_perm _).map toUserFile).symm.cons _)
  · -- the new record id is fresh for the previous listing
    intro x hx
    obtain ⟨r, hr, rfl⟩ := List.mem_map.mp hx
    have hrA : r ∈ st.db.filter (fun q => q.uid == uid) :=
      ((orderByCreatedAtDesc_perm _).mem_iff).mp hr
    have hdb : r ∈ st.db := (List.mem_filter.mp hrA).1
    exact Nat.ne_of_lt (hwf r hdb)
  · -- after the delete, listing gives exactly the previous listing
    have hdel : (st.db ++ [(⟨uid, st.nextId, ⟨f.name, f.size, f.type, url,
        "user_uploads/" ++ uid ++ "/" ++ f.name, uenv.nowIso, uenv.nowTs⟩⟩ :
          StoredDoc)]).filter (fun r => !(r.uid == uid && r.id == st.nextId)) =
        st.db := by
      rw [List.filter_append]
      have hx : List.filter (fun r => !(r.uid == uid && r.id == st.nextId))
          [(⟨uid, st.nextId, ⟨f.name, f.size, f.type, url,
            "user_uploads/" ++ uid ++ "/" ++ f.name, uenv.nowIso, uenv.nowTs⟩⟩ :
              StoredDoc)] = [] := by simp
      have hy : List.filter (fun r => !(r.uid == uid && r.id == st.nextId))
          st.db = st.db :=
        List.filter_eq_self.mpr (fun r hr => by
          have hne : (r.id == st.nextId) = false :=
            beq_eq_false_iff_ne.mpr (Nat.ne_of_lt (hwf r hr))
          simp [hne])
      rw [hx, hy, List.append_nil]
    simp only [hdel]

/-- C5 witness: a concrete round-trip from a one-record state. -/
theorem upload_list_delete_round_trip_witness :
    ∃ (rec : UploadRecord) (before after : List UserFile),
      (getUserFiles "u" ⟨.ok ()⟩
          ⟨[("q", [5])], [⟨"u", 0, ⟨"old.txt", 5, "text/plain", "http://q", "q",
            "2023-01-01T00:00:00.000Z", 1⟩⟩], 1⟩).data = some before ∧
      (uploadUserFile ⟨"a.txt", 3, "text/plain", [1, 2]⟩ "u"
          ⟨.ok (), .ok "http://u", .ok (), "2024-01-01T00:00:00.000Z", 7⟩
          ⟨[("q", [5])], [⟨"u", 0, ⟨"old.txt", 5, "text/plain", "http://q", "q",
            "2023-01-01T00:00:00.000Z", 1⟩⟩], 1⟩).1.success = true ∧
      (uploadUserFile ⟨"a.txt", 3, "text/plain", [1, 2]⟩ "u"
          ⟨.ok (), .ok "http://u", .ok (), "2024-01-01T00:00:00.000Z", 7⟩
          ⟨[("q", [5])], [⟨"u", 0, ⟨"old.txt", 5, "text/plain", "http://q", "q",
            "2023-01-01T00:00:00.000Z", 1⟩⟩], 1⟩).1.data = some rec ∧
      rec.fileData.name = "a.txt" ∧
      rec.fileData.size = 3 ∧
      rec.fileData.type = "text/plain" ∧
      (getUserFiles "u" ⟨.ok ()⟩
          (uploadUserFile ⟨"a.txt", 3, "text/plain", [1, 2]⟩ "u"
            ⟨.ok (), .ok "http://u", .ok (), "2024-01-01T00:00:00.000Z", 7⟩
            ⟨[("q", [5])], [⟨"u", 0, ⟨"old.txt", 5, "text/plain", "http://q", "q",
              "2023-01-01T00:00:00.000Z", 1⟩⟩], 1⟩).2).data = some after ∧
      after.Perm (toUserFile ⟨"u", rec.id, rec.fileData⟩ :: before) ∧
      (∀ x ∈ before, x.id ≠ rec.id) ∧
      (deleteUserFile rec.id rec.fileData.storagePath "u" ⟨.ok (), .ok ()⟩
          (uploadUserFile ⟨"a.txt", 3, "text/plain", [1, 2]⟩ "u"
            ⟨.ok (), .ok "http://u", .ok (), "2024-01-01T00:00:00.000Z", 7⟩
            ⟨[("q", [5])], [⟨"u", 0, ⟨"old.txt", 5, "text/plain", "http://q", "q",
              "2023-01-01T00:00:00.000Z", 1⟩⟩], 1⟩).2).1.success = true ∧
      (getUserFiles "u" ⟨.ok ()⟩
          (deleteUserFile rec.id rec.fileData.storagePath "u" ⟨.ok (), .ok ()⟩
            (uploadUserFile ⟨"a.txt", 3, "text/plain", [1, 2]⟩ "u"
              ⟨.ok (), .ok "http://u", .ok (), "2024-01-01T00:00:00.000Z", 7⟩
              ⟨[("q", [5])], [⟨"u", 0, ⟨"old.txt", 5, "text/plain", "http://q", "q",
                "2023-01-01T00:00:00.000Z", 1⟩⟩], 1⟩).2).2).data = some before :=
  upload_list_delete_round_trip ⟨"a.txt", 3, "text/plain", [1, 2]⟩ "u" "http://u"
    ⟨.ok (), .ok "http://u", .ok (), "2024-01-01T00:00:00.000Z", 7⟩ ⟨.ok ()⟩
    ⟨.ok (), .ok ()⟩
    ⟨[("q", [5])], [⟨"u", 0, ⟨"old.txt", 5, "text/plain", "http://q", "q",
      "2023-01-01T00:00:00.000Z", 1⟩⟩], 1⟩
    (by intro r hr; simp at hr; subst hr; decide)
    rfl rfl rfl rfl rfl rfl

/-- C10 witness: a two-file selection with a signed-in user passes only the
first file to upload. -/
theorem handleFileUpload_at_most_one_file_witness :
    (handleFileUpload
        (some [⟨"a.txt", 1, "text/plain", [1]⟩, ⟨"b.txt", 2, "text/plain", [2]⟩])
        (some "u") ⟨.ok (), .ok "http://u", .ok (), "2024-01-01T00:00:00.000Z", 9⟩
        ⟨.ok ()⟩ ⟨[], [], 0⟩ ⟨[], none⟩).1 =
      [(⟨"a.txt", 1, "text/plain", [1]⟩, "u")] :=
  (handleFileUpload_at_most_one_file
      (some [⟨"a.txt", 1, "text/plain", [1]⟩, ⟨"b.txt", 2, "text/plain", [2]⟩])
      (some "u") ⟨.ok (), .ok "http://u", .ok (), "2024-01-01T00:00:00.000Z", 9⟩
      ⟨.ok ()⟩ ⟨[], [], 0⟩ ⟨[], none⟩).2.1
    ⟨"a.txt", 1, "text/plain", [1]⟩ [⟨"b.txt", 2, "text/plain", [2]⟩] "u" rfl rfl
